import Mathlib

/-!
# `webf::ScriptValue` (bridge/bindings/v8/script_value.h)

A shallow embedding of the `ScriptValue` box: an isolate pointer together with a
`WorldSafeV8Reference<v8::Value>`.  Objects are records, member functions that mutate
the object return the object's new state, and `const` member functions are plain
functions of the object.

The header only *uses* `WorldSafeV8Reference`; the operations it consumes are collected
in the class `WorldSafeV8ReferenceApi`, so that everything taken from the header is
stated for an arbitrary reference type.  The concrete reference type
`WorldSafeV8Reference`, `ScriptValue::V8Value` and `ScriptValue::CreateNull` live in files
that are not part of the sources at hand and are modelled from the specification.
-/

namespace webf

/-! ## The engine side -/

/-- Identity of a `v8::Isolate`. -/
abbrev Isolate := Nat

/-- A `v8::Isolate*`; `none` is `nullptr`. -/
abbrev IsolatePtr := Option Isolate

/-- An engine value as far as `v8::Value::IsUndefined/IsNull/IsObject/IsFunction` tell
values apart.  The two sentinels are unique; every other value carries its identity. -/
inductive Value where
  | undefined
  | null
  | function (id : Nat)
  | object (id : Nat)
  | primitive (id : Nat)
  deriving DecidableEq

/-- The classification `v8::Value::IsUndefined`. -/
def Value.IsUndefined : Value → Bool
  | .undefined => true
  | _ => false

/-- The classification `v8::Value::IsNull`. -/
def Value.IsNull : Value → Bool
  | .null => true
  | _ => false

/-- The classification `v8::Value::IsFunction`. -/
def Value.IsFunction : Value → Bool
  | .function _ => true
  | _ => false

/-- The classification `v8::Value::IsObject`; a function is an object. -/
def Value.IsObject : Value → Bool
  | .function _ => true
  | .object _ => true
  | _ => false

/-- A `v8::Local<v8::Value>`: either the empty handle (`ptr = none`) or a handle to a
value. -/
structure Local where
  ptr : Option Value
  deriving DecidableEq

/-- The default-constructed `v8::Local<T>()`, the engine's empty handle. -/
def Local.empty : Local := ⟨none⟩

/-- A handle to the given value. -/
def Local.of (v : Value) : Local := ⟨some v⟩

/-- The query `v8::Local<T>::IsEmpty`. -/
def Local.IsEmpty (l : Local) : Bool := l.ptr.isNone

/-- A `v8::MaybeLocal<T>`: a result that may not have materialized. -/
structure MaybeLocal where
  ptr : Option Value
  deriving DecidableEq

/-- The query `v8::MaybeLocal<T>::IsEmpty`. -/
def MaybeLocal.IsEmpty (m : MaybeLocal) : Bool := m.ptr.isNone

/-- The engine's null sentinel `v8::Null(isolate)`. -/
def v8Null (_isolate : IsolatePtr) : Local := Local.of Value.null

/-! ## The reference interface the header consumes -/

/-- The operations of `WorldSafeV8Reference<v8::Value>` that `ScriptValue` calls:
default construction, construction from `(isolate, handle)`, `IsEmpty()`, `Reset()`,
`operator==` and resolution to a local handle. -/
class WorldSafeV8ReferenceApi (R : Type) where
  /-- The default constructor `WorldSafeV8Reference()`. -/
  default : R
  /-- The constructor `WorldSafeV8Reference(isolate, value)`. -/
  construct : IsolatePtr → Local → R
  /-- The query `IsEmpty()`. -/
  IsEmpty : R → Bool
  /-- The state of the reference after `Reset()`. -/
  Reset : R → R
  /-- The comparison `operator==`. -/
  operatorEq : R → R → Bool
  /-- Resolution to a local handle. -/
  Get : R → Local

/-- Modelled from the spec: the class `WorldSafeV8Reference<v8::Value>`
(world_safe_v8_reference.h is not among the sources), an indirection "holding at most one
engine value".  The reference either holds no handle at all (`handle = none`) or holds a
handle. -/
structure WorldSafeV8Reference where
  handle : Option Local
  deriving DecidableEq

/-- Modelled from the spec: the operations of the absent `WorldSafeV8Reference`
("construction from (entry point, handle); resolution to a local handle; equality between
two references; emptiness query; explicit reset").  `IsEmpty` is "true iff the value
reference holds no handle at all"; equality compares the held handles by identity.
The destructor comment of the header (script_value.h:97-98) names `v8::TracedReference`
as what lies underneath: a traced handle is made for a live value only, so construction
from the engine's empty handle leaves the reference without a handle. -/
instance WorldSafeV8Reference.api : WorldSafeV8ReferenceApi WorldSafeV8Reference where
  default := ⟨none⟩
  construct := fun _isolate value => if value.IsEmpty then ⟨none⟩ else ⟨some value⟩
  IsEmpty := fun r => r.handle.isNone
  Reset := fun _ => ⟨none⟩
  operatorEq := fun r s => decide (r.handle = s.handle)
  Get := fun r => r.handle.getD Local.empty

/-- The class `ScriptValue`: the private members `isolate_` and `value_`. -/
structure ScriptValue (R : Type) where
  isolate_ : IsolatePtr
  value_ : R
  deriving DecidableEq

namespace ScriptValue

variable {R : Type} [WorldSafeV8ReferenceApi R]

/-- The default constructor `ScriptValue() = default`: `isolate_ = nullptr` and a
default-constructed `value_`. -/
def default : ScriptValue R := ⟨none, WorldSafeV8ReferenceApi.default⟩

/-- The constructor `ScriptValue(v8::Isolate* isolate, v8::Local<v8::Value> value)`. -/
def ofLocal (isolate : IsolatePtr) (value : Local) : ScriptValue R :=
  ⟨isolate, WorldSafeV8ReferenceApi.construct isolate value⟩

/-- The destructor body `value_.Reset()`: the members as the destructor leaves them. -/
def destructor (self : ScriptValue R) : ScriptValue R :=
  ⟨self.isolate_, WorldSafeV8ReferenceApi.Reset self.value_⟩

/-- The copy constructor `ScriptValue(const ScriptValue& value) = default`. -/
def copy (value : ScriptValue R) : ScriptValue R :=
  ⟨value.isolate_, value.value_⟩

/-- The accessor `GetIsolate()`. -/
def GetIsolate (self : ScriptValue R) : IsolatePtr := self.isolate_

/-- The copy assignment `operator=(const ScriptValue& value) = default`: the state of
`self` after `self = value`. -/
def operatorAssign (_self value : ScriptValue R) : ScriptValue R :=
  ⟨value.isolate_, value.value_⟩

/-- The query `IsEmpty()`: `value_.IsEmpty()`. -/
def IsEmpty (self : ScriptValue R) : Bool :=
  WorldSafeV8ReferenceApi.IsEmpty self.value_

/-- The comparison `operator==`. -/
def operatorEq (self value : ScriptValue R) : Bool :=
  if self.IsEmpty then value.IsEmpty
  else if value.IsEmpty then false
  else WorldSafeV8ReferenceApi.operatorEq self.value_ value.value_

/-- The comparison `operator!=`. -/
def operatorNe (self value : ScriptValue R) : Bool := !self.operatorEq value

/-- Modelled from the spec: `ScriptValue::V8Value()` is only declared in the header
(script_value.cc is not among the sources).  It "returns the best local handle to the
underlying value for the box's own context", and on an empty box nothing is resolved
("rather than resolving a handle"): the engine's empty handle comes back. -/
def V8Value (self : ScriptValue R) : Local :=
  if self.IsEmpty then Local.empty else WorldSafeV8ReferenceApi.Get self.value_

/-- The predicate `IsFunction()`: `!value.IsEmpty() && value->IsFunction()` on
`value = V8Value()`. -/
def IsFunction (self : ScriptValue R) : Bool :=
  let value := self.V8Value
  !value.IsEmpty && (match value.ptr with
    | some v => v.IsFunction
    | none => false)

/-- The predicate `IsNull()`: `!value.IsEmpty() && value->IsNull()` on
`value = V8Value()`. -/
def IsNull (self : ScriptValue R) : Bool :=
  let value := self.V8Value
  !value.IsEmpty && (match value.ptr with
    | some v => v.IsNull
    | none => false)

/-- The predicate `IsUndefined()`: `!value.IsEmpty() && value->IsUndefined()` on
`value = V8Value()`. -/
def IsUndefined (self : ScriptValue R) : Bool :=
  let value := self.V8Value
  !value.IsEmpty && (match value.ptr with
    | some v => v.IsUndefined
    | none => false)

/-- The predicate `IsObject()`: `!value.IsEmpty() && value->IsObject()` on
`value = V8Value()`. -/
def IsObject (self : ScriptValue R) : Bool :=
  let value := self.V8Value
  !value.IsEmpty && (match value.ptr with
    | some v => v.IsObject
    | none => false)

/-- The member `Clear()`: `isolate_ = nullptr; value_.Reset();`. -/
def Clear (self : ScriptValue R) : ScriptValue R :=
  ⟨none, WorldSafeV8ReferenceApi.Reset self.value_⟩

/-- Modelled from the spec: `ScriptValue::CreateNull(isolate)` is only declared in the
header (script_value.cc is not among the sources): a "factory producing a box explicitly
bound to the engine's null sentinel under the given context". -/
def CreateNull (isolate : IsolatePtr) : ScriptValue R :=
  ofLocal isolate (v8Null isolate)

/-- The *empty* state of the data model: null context and no value. -/
def isEmptyState (self : ScriptValue R) : Bool :=
  self.isolate_.isNone && self.IsEmpty

/-- The *bound* state of the data model: non-null context and a value reference that
holds a handle. -/
def isBoundState (self : ScriptValue R) : Bool :=
  self.isolate_.isSome && !self.IsEmpty

end ScriptValue

/-! ## Programs over boxes -/

/-- Two boxes alive side by side, `X` and `Y`. -/
structure Scope where
  X : ScriptValue WorldSafeV8Reference
  Y : ScriptValue WorldSafeV8Reference
  deriving DecidableEq

/-- The declaration `ScriptValue Y(X);` next to an existing `X`. -/
def Scope.copyConstructY (X : ScriptValue WorldSafeV8Reference) : Scope :=
  ⟨X, ScriptValue.copy X⟩

/-- The statement `Y = X;`. -/
def Scope.assignY (s : Scope) : Scope :=
  ⟨s.X, s.Y.operatorAssign s.X⟩

/-- The statement `Y.Clear();`. -/
def Scope.clearY (s : Scope) : Scope :=
  ⟨s.X, s.Y.Clear⟩

end webf

/-! ## Theorems -/

namespace webf

section Generic

variable {R : Type} [WorldSafeV8ReferenceApi R]

/-- Unfolding of `operator==` on a pair of boxes whose emptiness is known. -/
theorem ScriptValue.operatorEq_of_isEmpty (a b : ScriptValue R) (ea eb : Bool)
    (ha : a.IsEmpty = ea) (hb : b.IsEmpty = eb) :
    a.operatorEq b =
      (if ea then eb else if eb then false
        else WorldSafeV8ReferenceApi.operatorEq a.value_ b.value_) := by
  subst ha hb
  rfl

/-- C1: `a == b` is true when both boxes are empty, false when exactly one of them is
empty, and the comparison of the two value references when neither is empty. -/
theorem ScriptValue.operatorEq_decided (a b : ScriptValue R) :
    (a.IsEmpty = true ∧ b.IsEmpty = true → a.operatorEq b = true) ∧
    ((a.IsEmpty = true ∧ b.IsEmpty = false) ∨ (a.IsEmpty = false ∧ b.IsEmpty = true) →
      a.operatorEq b = false) ∧
    (a.IsEmpty = false ∧ b.IsEmpty = false →
      a.operatorEq b = WorldSafeV8ReferenceApi.operatorEq a.value_ b.value_) := by
  refine ⟨?_, ?_, ?_⟩
  · rintro ⟨ha, hb⟩
    simp [ScriptValue.operatorEq_of_isEmpty a b _ _ ha hb]
  · rintro (⟨ha, hb⟩ | ⟨ha, hb⟩) <;>
      simp [ScriptValue.operatorEq_of_isEmpty a b _ _ ha hb]
  · rintro ⟨ha, hb⟩
    simp [ScriptValue.operatorEq_of_isEmpty a b _ _ ha hb]

/-- C10: when the equality of value references is reflexive, symmetric and transitive,
`operator==` on boxes is reflexive, symmetric and transitive over all boxes, does not
depend on the stored isolate pointers, and `operator!=` is its negation. -/
theorem ScriptValue.operatorEq_equivalence
    (hrefl : ∀ r : R, WorldSafeV8ReferenceApi.operatorEq r r = true)
    (hsymm : ∀ r s : R,
      WorldSafeV8ReferenceApi.operatorEq r s = WorldSafeV8ReferenceApi.operatorEq s r)
    (htrans : ∀ r s t : R, WorldSafeV8ReferenceApi.operatorEq r s = true →
      WorldSafeV8ReferenceApi.operatorEq s t = true →
      WorldSafeV8ReferenceApi.operatorEq r t = true) :
    (∀ a : ScriptValue R, a.operatorEq a = true) ∧
    (∀ a b : ScriptValue R, a.operatorEq b = b.operatorEq a) ∧
    (∀ a b c : ScriptValue R, a.operatorEq b = true → b.operatorEq c = true →
      a.operatorEq c = true) ∧
    (∀ (a b : ScriptValue R) (i j : IsolatePtr),
      ScriptValue.operatorEq ⟨i, a.value_⟩ ⟨j, b.value_⟩ = a.operatorEq b) ∧
    (∀ a b : ScriptValue R, a.operatorNe b = !a.operatorEq b) := by
  refine ⟨?_, ?_, ?_, ?_, ?_⟩
  · intro a
    rw [ScriptValue.operatorEq_of_isEmpty a a _ _ rfl rfl]
    cases a.IsEmpty <;> simp [hrefl]
  · intro a b
    rw [ScriptValue.operatorEq_of_isEmpty a b _ _ rfl rfl,
      ScriptValue.operatorEq_of_isEmpty b a _ _ rfl rfl]
    cases a.IsEmpty <;> cases b.IsEmpty <;> simp [hsymm a.value_ b.value_]
  · intro a b c
    rw [ScriptValue.operatorEq_of_isEmpty a b _ _ rfl rfl,
      ScriptValue.operatorEq_of_isEmpty b c _ _ rfl rfl,
      ScriptValue.operatorEq_of_isEmpty a c _ _ rfl rfl]
    cases a.IsEmpty <;> cases b.IsEmpty <;> cases c.IsEmpty <;> simp
    exact htrans _ _ _
  · intro a b i j
    rfl
  · intro a b
    rfl

/-- C7: on an empty box each of `IsNull()`, `IsUndefined()`, `IsObject()` and
`IsFunction()` returns false; the predicates are total, no check stands in the way. -/
theorem ScriptValue.predicates_false_of_isEmpty (a : ScriptValue R)
    (h : a.IsEmpty = true) :
    a.IsNull = false ∧ a.IsUndefined = false ∧ a.IsObject = false ∧
      a.IsFunction = false := by
  simp [ScriptValue.IsNull, ScriptValue.IsUndefined, ScriptValue.IsObject,
    ScriptValue.IsFunction, ScriptValue.V8Value, h, Local.empty, Local.IsEmpty]

end Generic

section Model

/-- In the reference model equality of references is reflexive. -/
theorem WorldSafeV8Reference.operatorEq_refl (r : WorldSafeV8Reference) :
    WorldSafeV8ReferenceApi.operatorEq r r = true := by
  simp [WorldSafeV8ReferenceApi.operatorEq]

/-- In the reference model equality of references is symmetric. -/
theorem WorldSafeV8Reference.operatorEq_symm (r s : WorldSafeV8Reference) :
    WorldSafeV8ReferenceApi.operatorEq r s = WorldSafeV8ReferenceApi.operatorEq s r := by
  simp [WorldSafeV8ReferenceApi.operatorEq, eq_comm]

/-- In the reference model equality of references is transitive. -/
theorem WorldSafeV8Reference.operatorEq_trans (r s t : WorldSafeV8Reference)
    (hrs : WorldSafeV8ReferenceApi.operatorEq r s = true)
    (hst : WorldSafeV8ReferenceApi.operatorEq s t = true) :
    WorldSafeV8ReferenceApi.operatorEq r t = true := by
  simp only [WorldSafeV8ReferenceApi.operatorEq, decide_eq_true_eq] at *
  exact hrs.trans hst

/-- C4: whatever the prior state of a box, after `Clear()` it is empty, its isolate is
null, and it compares equal to a default-constructed box (in either order). -/
theorem ScriptValue.Clear_is_empty (a : ScriptValue WorldSafeV8Reference) :
    a.Clear.IsEmpty = true ∧ a.Clear.GetIsolate = none ∧
      a.Clear.isEmptyState = true ∧
      a.Clear.operatorEq ScriptValue.default = true ∧
      (ScriptValue.default : ScriptValue WorldSafeV8Reference).operatorEq a.Clear = true ∧
      a.Clear.Clear = a.Clear :=
  ⟨rfl, rfl, rfl, rfl, rfl, rfl⟩

/-- C5: for a bound box `X` and a copy `Y` of it, made by the copy constructor or by copy
assignment over any earlier `Y`, `X == Y` holds, and after `Y.Clear()` the box `X` is what
it was: same isolate, still non-null, still not empty, same value reference and same
resolved value, while `Y` is empty. -/
theorem Scope.copy_eq_and_clear_frame (X Y0 : ScriptValue WorldSafeV8Reference)
    (h : X.isBoundState = true) :
    (X.operatorEq (Scope.copyConstructY X).Y = true ∧
      X.operatorEq (Scope.assignY ⟨X, Y0⟩).Y = true) ∧
    ((Scope.copyConstructY X).clearY.X = X ∧
      (Scope.copyConstructY X).clearY.X.GetIsolate.isSome = true ∧
      (Scope.copyConstructY X).clearY.X.IsEmpty = false ∧
      (Scope.copyConstructY X).clearY.X.value_ = X.value_ ∧
      (Scope.copyConstructY X).clearY.X.V8Value = X.V8Value ∧
      (Scope.copyConstructY X).clearY.Y.IsEmpty = true) ∧
    ((Scope.assignY ⟨X, Y0⟩).clearY.X = X ∧
      (Scope.assignY ⟨X, Y0⟩).clearY.X.GetIsolate.isSome = true ∧
      (Scope.assignY ⟨X, Y0⟩).clearY.X.IsEmpty = false ∧
      (Scope.assignY ⟨X, Y0⟩).clearY.X.value_ = X.value_ ∧
      (Scope.assignY ⟨X, Y0⟩).clearY.X.V8Value = X.V8Value ∧
      (Scope.assignY ⟨X, Y0⟩).clearY.Y.IsEmpty = true) := by
  simp only [ScriptValue.isBoundState, Bool.and_eq_true, Bool.not_eq_true'] at h
  obtain ⟨hiso, hne⟩ := h
  have heq : X.operatorEq ⟨X.isolate_, X.value_⟩ = true := by
    rw [ScriptValue.operatorEq_of_isEmpty X ⟨X.isolate_, X.value_⟩ false false hne hne]
    simpa using WorldSafeV8Reference.operatorEq_refl X.value_
  exact ⟨⟨heq, heq⟩, ⟨rfl, hiso, hne, rfl, rfl, rfl⟩, ⟨rfl, hiso, hne, rfl, rfl, rfl⟩⟩

/-- Witness for C5: a box bound to an object under isolate 1, assigned over a box bound
to the null sentinel under isolate 2. -/
theorem Scope.copy_eq_and_clear_frame_witness :
    (ScriptValue.ofLocal (some 1) (Local.of (Value.object 5)) :
        ScriptValue WorldSafeV8Reference).isBoundState = true ∧
      (Scope.assignY ⟨ScriptValue.ofLocal (some 1) (Local.of (Value.object 5)),
        ScriptValue.ofLocal (some 2) (Local.of Value.null)⟩).clearY.X
        = ScriptValue.ofLocal (some 1) (Local.of (Value.object 5)) ∧
      (Scope.assignY ⟨ScriptValue.ofLocal (some 1) (Local.of (Value.object 5)),
        ScriptValue.ofLocal (some 2) (Local.of Value.null)⟩).clearY.Y.IsEmpty = true :=
  ⟨by decide,
    (Scope.copy_eq_and_clear_frame (ScriptValue.ofLocal (some 1) (Local.of (Value.object 5)))
      (ScriptValue.ofLocal (some 2) (Local.of Value.null)) (by decide)).2.2.1,
    (Scope.copy_eq_and_clear_frame (ScriptValue.ofLocal (some 1) (Local.of (Value.object 5)))
      (ScriptValue.ofLocal (some 2) (Local.of Value.null)) (by decide)).2.2.2.2.2.2.2⟩

/-- C6: a default-constructed box is empty and has a null isolate, and two
default-constructed boxes compare equal under `operator==` and not unequal under
`operator!=`. -/
theorem ScriptValue.default_is_empty_and_equal :
    (ScriptValue.default : ScriptValue WorldSafeV8Reference).IsEmpty = true ∧
      (ScriptValue.default : ScriptValue WorldSafeV8Reference).GetIsolate = none ∧
      (ScriptValue.default : ScriptValue WorldSafeV8Reference).operatorEq
        (ScriptValue.default : ScriptValue WorldSafeV8Reference) = true ∧
      (ScriptValue.default : ScriptValue WorldSafeV8Reference).operatorNe
        (ScriptValue.default : ScriptValue WorldSafeV8Reference) = false := by
  decide

/-- Witness for C7: the default-constructed box. -/
theorem ScriptValue.predicates_false_of_isEmpty_witness :
    (ScriptValue.default : ScriptValue WorldSafeV8Reference).IsEmpty = true ∧
      (ScriptValue.default : ScriptValue WorldSafeV8Reference).IsNull = false ∧
      (ScriptValue.default : ScriptValue WorldSafeV8Reference).IsUndefined = false ∧
      (ScriptValue.default : ScriptValue WorldSafeV8Reference).IsObject = false ∧
      (ScriptValue.default : ScriptValue WorldSafeV8Reference).IsFunction = false :=
  ⟨rfl, ScriptValue.predicates_false_of_isEmpty ScriptValue.default rfl⟩

/-- C8: for every isolate, the box made by `CreateNull` answers true to `IsNull()` and
false to `IsUndefined()`. -/
theorem ScriptValue.CreateNull_isNull (isolate : IsolatePtr) :
    (ScriptValue.CreateNull isolate : ScriptValue WorldSafeV8Reference).IsNull = true ∧
      (ScriptValue.CreateNull isolate : ScriptValue WorldSafeV8Reference).IsUndefined
        = false ∧
      (ScriptValue.CreateNull isolate : ScriptValue WorldSafeV8Reference).GetIsolate
        = isolate :=
  ⟨rfl, rfl, rfl⟩

/-- C9: the destructor resets the value reference of every box, empty or bound: after it
the reference holds no handle, and it is the reference state that `Clear()` leaves. -/
theorem ScriptValue.destructor_releases (a : ScriptValue WorldSafeV8Reference) :
    a.destructor.IsEmpty = true ∧
      a.destructor.value_ = WorldSafeV8ReferenceApi.Reset a.value_ ∧
      a.destructor.value_ = a.Clear.value_ ∧
      a.destructor.V8Value = Local.empty :=
  ⟨rfl, rfl, rfl, rfl⟩

/-- Witness for C10: the reference model meets the three assumptions, and there
`operator==` is an equivalence that ignores the isolate. -/
theorem ScriptValue.operatorEq_equivalence_witness :
    (∀ r : WorldSafeV8Reference, WorldSafeV8ReferenceApi.operatorEq r r = true) ∧
    (ScriptValue.operatorEq (ScriptValue.ofLocal (some 1) (Local.of (Value.object 5)))
        (ScriptValue.ofLocal (some 2) (Local.of (Value.object 5)) :
          ScriptValue WorldSafeV8Reference) = true) ∧
    (∀ a b c : ScriptValue WorldSafeV8Reference, a.operatorEq b = true →
      b.operatorEq c = true → a.operatorEq c = true) :=
  ⟨WorldSafeV8Reference.operatorEq_refl,
    by decide,
    (ScriptValue.operatorEq_equivalence WorldSafeV8Reference.operatorEq_refl
      WorldSafeV8Reference.operatorEq_symm WorldSafeV8Reference.operatorEq_trans).2.2.1⟩

end Model

end webf
